import Mathlib

/-!
Verification development for the multi-tier tax-identifier resolution pipeline
(src/main.py).

The development shallowly embeds the pure string-processing helpers of the
source (normalize_mst, fix_dash, slugify_vi, expand_abbreviations,
build_masothue_link), the retry/backoff loop request_json_with_retry with the
external HTTP responses supplied by an oracle, and the per-row fallback chain
of process_excel with the registry/browser calls supplied by an oracle.
Strings are manipulated through their underlying character lists.
-/

namespace Mst

/-- Python whitespace (the regex class and the default of str.strip), modelled
on the ASCII whitespace characters that occur in the pipeline's data. -/
def isPyWs (c : Char) : Bool := c.isWhitespace

/-- Python str.strip with no argument: drop whitespace from both ends. -/
def pyStripChars (l : List Char) : List Char :=
  ((l.dropWhile isPyWs).reverse.dropWhile isPyWs).reverse

/-- String-level strip, used where the source calls .strip(). -/
def pyStrip (s : String) : String := String.mk (pyStripChars s.data)

/-- Characters kept by the character filter of normalize_mst (digits and dash). -/
def isMstChar (c : Char) : Bool := c.isDigit || c == '-'

/-- src/main.py is_13_numbers: the string is exactly 13 decimal digits. -/
def is_13_numbers (l : List Char) : Bool := l.length == 13 && l.all Char.isDigit

/-- src/main.py fix_dash: insert a dash after the 10th digit of a 13-digit
all-numeric identifier, otherwise return the string unchanged. -/
def fix_dash (l : List Char) : List Char :=
  if is_13_numbers l then l.take 10 ++ '-' :: l.drop 10 else l

/-- The character filtering stage of normalize_mst: strip, then remove every
whitespace character (the first re.sub), then remove every character outside
digits and dash (the second re.sub). -/
def mstFiltered (l : List Char) : List Char :=
  ((pyStripChars l).filter (fun c => !(isPyWs c))).filter isMstChar

/-- src/main.py normalize_mst over the character list. -/
def normalize_mst_chars (l : List Char) : List Char :=
  fix_dash (mstFiltered l)

/-- src/main.py normalize_mst. -/
def normalize_mst (s : String) : String := String.mk (normalize_mst_chars s.data)

/-- Rebuilding a string from its character list is the identity. -/
theorem string_mk_data (s : String) : String.mk s.data = s := by
  cases s
  rfl

/-- Membership in fix_dash output: every character comes from the input or is
the inserted dash. -/
theorem mem_fix_dash {l : List Char} {c : Char} (h : c ∈ fix_dash l) :
    c ∈ l ∨ c = '-' := by
  unfold fix_dash at h
  split at h
  · rcases List.mem_append.mp h with h' | h'
    · exact Or.inl (List.mem_of_mem_take h')
    · rcases List.mem_cons.mp h' with h'' | h''
      · exact Or.inr h''
      · exact Or.inl (List.mem_of_mem_drop h'')
  · exact Or.inl h

/-- Every character produced by normalize_mst is a digit or a dash. -/
theorem mem_normalize_isMst {l : List Char} {c : Char}
    (h : c ∈ normalize_mst_chars l) : isMstChar c = true := by
  unfold normalize_mst_chars at h
  rcases mem_fix_dash h with h' | h'
  · exact (List.mem_filter.mp h').2
  · subst h'
    decide

/-- Digits and dashes are not whitespace. -/
theorem isMstChar_not_ws {c : Char} (h : isMstChar c = true) : isPyWs c = false := by
  by_contra hw
  simp only [Bool.not_eq_false] at hw
  unfold isPyWs at hw
  simp [Char.isWhitespace] at hw
  rcases hw with ((h' | h') | h') | h' <;> subst h' <;> exact absurd h (by decide)

/-- dropWhile is the identity when no element satisfies the predicate. -/
theorem dropWhile_eq_self_of_not {p : Char → Bool} {l : List Char}
    (h : ∀ c ∈ l, p c = false) : l.dropWhile p = l := by
  cases l with
  | nil => rfl
  | cons a t => simp [List.dropWhile_cons, h a (List.mem_cons_self a t)]

/-- Stripping is the identity on whitespace-free strings. -/
theorem pyStripChars_eq_self {l : List Char} (h : ∀ c ∈ l, isPyWs c = false) :
    pyStripChars l = l := by
  unfold pyStripChars
  rw [dropWhile_eq_self_of_not h]
  rw [dropWhile_eq_self_of_not (fun c hc => h c (List.mem_reverse.mp hc))]
  exact List.reverse_reverse l

/-- The output of fix_dash is never 13 pure digits. -/
theorem is_13_fix_dash (l : List Char) : is_13_numbers (fix_dash l) = false := by
  by_cases h : is_13_numbers l
  · rw [fix_dash, if_pos h]
    have hlen : l.length = 13 := by
      simp [is_13_numbers] at h
      exact h.1
    simp [is_13_numbers, List.length_append, List.length_take, List.length_drop, hlen]
  · rw [fix_dash, if_neg h]
    simpa using h

/-- The output of normalize_mst is never 13 pure digits. -/
theorem is_13_normalize (l : List Char) :
    is_13_numbers (normalize_mst_chars l) = false := by
  unfold normalize_mst_chars
  exact is_13_fix_dash _

/-- A list of digits and dashes that is not 13 pure digits is a fixed point of
the normalization. -/
theorem normalize_chars_fixpoint {m : List Char}
    (hmst : ∀ c ∈ m, isMstChar c = true) (h13 : is_13_numbers m = false) :
    normalize_mst_chars m = m := by
  have hws : ∀ c ∈ m, isPyWs c = false := fun c hc => isMstChar_not_ws (hmst c hc)
  have h1 : List.filter (fun c => !(isPyWs c)) m = m :=
    List.filter_eq_self.mpr (fun c hc => by rw [hws c hc]; rfl)
  have h2 : List.filter isMstChar m = m := List.filter_eq_self.mpr hmst
  unfold normalize_mst_chars mstFiltered
  rw [pyStripChars_eq_self hws, h1, h2, fix_dash, if_neg (by simp [h13])]

/-- C6: normalization is idempotent — normalizing an already-normalized
identifier returns it unchanged, for every input string. -/
theorem normalize_mst_idempotent (s : String) :
    normalize_mst (normalize_mst s) = normalize_mst s := by
  show String.mk (normalize_mst_chars (normalize_mst_chars s.data)) = _
  rw [normalize_chars_fixpoint (fun c hc => mem_normalize_isMst hc) (is_13_normalize _)]
  rfl

/-- All-digit strings pass the filtering stage of normalize_mst unchanged. -/
theorem mstFiltered_digits {l : List Char} (h : ∀ c ∈ l, c.isDigit = true) :
    mstFiltered l = l := by
  have hmst : ∀ c ∈ l, isMstChar c = true := fun c hc => by simp [isMstChar, h c hc]
  have hws : ∀ c ∈ l, isPyWs c = false := fun c hc => isMstChar_not_ws (hmst c hc)
  have h1 : List.filter (fun c => !(isPyWs c)) l = l :=
    List.filter_eq_self.mpr (fun c hc => by rw [hws c hc]; rfl)
  have h2 : List.filter isMstChar l = l := List.filter_eq_self.mpr hmst
  unfold mstFiltered
  rw [pyStripChars_eq_self hws, h1, h2]

/-- A list of digits contains no dash. -/
theorem count_dash_digits {l : List Char} (h : ∀ c ∈ l, c.isDigit = true) :
    l.count '-' = 0 :=
  List.count_eq_zero.mpr (fun hc => absurd (h '-' hc) (by decide))

/-- C7: normalize_mst maps every 13-digit all-numeric identifier to the same
digits with one dash inserted after the 10th digit (in particular
0102234896123 normalizes to 0102234896-123) and leaves a 10-digit all-numeric
identifier unchanged. -/
theorem normalize_mst_dash_insertion :
    (∀ s : String, s.data.length = 13 → (∀ c ∈ s.data, c.isDigit = true) →
      normalize_mst s = String.mk (s.data.take 10 ++ '-' :: s.data.drop 10)) ∧
    (∀ s : String, s.data.length = 10 → (∀ c ∈ s.data, c.isDigit = true) →
      normalize_mst s = s) ∧
    normalize_mst "0102234896123" = "0102234896-123" := by
  refine ⟨?_, ?_, by decide⟩
  · intro s hlen hdig
    unfold normalize_mst normalize_mst_chars
    rw [mstFiltered_digits hdig]
    rw [fix_dash, if_pos (by simp [is_13_numbers, hlen]; exact fun c hc => hdig c hc)]
  · intro s hlen hdig
    unfold normalize_mst normalize_mst_chars
    rw [mstFiltered_digits hdig]
    rw [fix_dash, if_neg (by simp [is_13_numbers, hlen])]

/-- Witness for C7 at concrete 13-digit and 10-digit inputs. -/
theorem normalize_mst_dash_insertion_witness :
    normalize_mst "0102234896123" =
      String.mk ("0102234896123".data.take 10 ++ '-' :: "0102234896123".data.drop 10) ∧
    normalize_mst "0123456789" = "0123456789" :=
  ⟨normalize_mst_dash_insertion.1 "0102234896123" (by decide) (by decide),
   normalize_mst_dash_insertion.2.1 "0123456789" (by decide) (by decide)⟩

/-- C8 counterexample: normalize_mst can output more than one dash, and it can
output a dash in first position, because the character filter keeps every dash
of the input; only the 13-digit rule controls dash placement. -/
theorem normalize_mst_shape_counterexample :
    (normalize_mst "1-2-3").data.count '-' = 2 ∧
    ¬ ((normalize_mst "1-2-3").data.count '-' ≤ 1) ∧
    (normalize_mst "-").data.head? = some '-' ∧
    (normalize_mst "-").data.getLast? = some '-' := by
  refine ⟨by decide, by decide, by decide, by decide⟩

/-- Shape of fix_dash on all-digit input: at most one dash, never at either
end. -/
theorem fix_dash_shape {f : List Char} (hdig : ∀ c ∈ f, c.isDigit = true) :
    (fix_dash f).count '-' ≤ 1 ∧ (fix_dash f).head? ≠ some '-' ∧
    (fix_dash f).getLast? ≠ some '-' := by
  have hnotmem : ∀ {m : List Char}, (∀ c ∈ m, c.isDigit = true) →
      m.getLast? ≠ some '-' := by
    intro m hm hcontra
    have hmem : '-' ∈ m.getLast? := Option.mem_def.mpr hcontra
    obtain ⟨hne, heq⟩ := List.mem_getLast?_eq_getLast hmem
    have : '-' ∈ m := heq ▸ List.getLast_mem hne
    exact absurd (hm '-' this) (by decide)
  by_cases h13 : is_13_numbers f
  · have hlen : f.length = 13 := by
      simp [is_13_numbers] at h13
      exact h13.1
    rw [fix_dash, if_pos h13]
    refine ⟨?_, ?_, ?_⟩
    · rw [List.count_append, List.count_cons]
      have h1 : (f.take 10).count '-' = 0 :=
        count_dash_digits (fun c hc => hdig c (List.mem_of_mem_take hc))
      have h2 : (f.drop 10).count '-' = 0 :=
        count_dash_digits (fun c hc => hdig c (List.mem_of_mem_drop hc))
      simp [h1, h2]
    · cases f with
      | nil => simp at hlen
      | cons a t =>
        have ht : (a :: t).take 10 = a :: t.take 9 := rfl
        rw [ht]
        simp only [List.cons_append, List.head?_cons, ne_eq, Option.some.injEq]
        intro hcontra
        subst hcontra
        exact absurd (hdig '-' (List.mem_cons_self _ _)) (by decide)
    · have hdrop : f.drop 10 ≠ [] := by
        intro hd
        have := congrArg List.length hd
        simp [List.length_drop, hlen] at this
      rw [List.getLast?_append_of_ne_nil _ (by simp)]
      rw [show ('-' :: f.drop 10) = ['-'] ++ f.drop 10 from rfl]
      rw [List.getLast?_append_of_ne_nil _ hdrop]
      exact hnotmem (fun c hc => hdig c (List.mem_of_mem_drop hc))
  · rw [fix_dash, if_neg h13]
    refine ⟨?_, ?_, hnotmem hdig⟩
    · simp [count_dash_digits hdig]
    · cases f with
      | nil => simp
      | cons a t =>
        simp only [List.head?_cons, ne_eq, Option.some.injEq]
        intro hcontra
        subst hcontra
        exact absurd (hdig '-' (List.mem_cons_self _ _)) (by decide)

/-- C8 amended: every character of the normalize_mst output is a digit or a
dash; and whenever the character-filtered input is all-numeric, the output has
at most one dash and the dash is interior (never first or last). -/
theorem normalize_mst_shape :
    (∀ s : String, ∀ c ∈ (normalize_mst s).data, isMstChar c = true) ∧
    (∀ s : String, (∀ c ∈ mstFiltered s.data, c.isDigit = true) →
      (normalize_mst s).data.count '-' ≤ 1 ∧
      (normalize_mst s).data.head? ≠ some '-' ∧
      (normalize_mst s).data.getLast? ≠ some '-') := by
  constructor
  · intro s c hc
    exact mem_normalize_isMst hc
  · intro s hdig
    have h : (normalize_mst s).data = fix_dash (mstFiltered s.data) := rfl
    rw [h]
    exact fix_dash_shape hdig

/-- Witness for amended C8 at a concrete 13-digit input. -/
theorem normalize_mst_shape_witness :
    (normalize_mst "0102234896123").data.count '-' ≤ 1 ∧
    (normalize_mst "0102234896123").data.head? ≠ some '-' ∧
    (normalize_mst "0102234896123").data.getLast? ≠ some '-' :=
  normalize_mst_shape.2 "0102234896123" (by decide)

/-- Python str.lower for the pipeline's character domain: ASCII letters plus
the precomposed Vietnamese letters; identity elsewhere. -/
def pyLower (c : Char) : Char :=
  match c with
  | 'À' => 'à' | 'Á' => 'á' | 'Ả' => 'ả' | 'Ã' => 'ã' | 'Ạ' => 'ạ'
  | 'Ă' => 'ă' | 'Ằ' => 'ằ' | 'Ắ' => 'ắ' | 'Ẳ' => 'ẳ' | 'Ẵ' => 'ẵ' | 'Ặ' => 'ặ'
  | 'Â' => 'â' | 'Ầ' => 'ầ' | 'Ấ' => 'ấ' | 'Ẩ' => 'ẩ' | 'Ẫ' => 'ẫ' | 'Ậ' => 'ậ'
  | 'È' => 'è' | 'É' => 'é' | 'Ẻ' => 'ẻ' | 'Ẽ' => 'ẽ' | 'Ẹ' => 'ẹ'
  | 'Ê' => 'ê' | 'Ề' => 'ề' | 'Ế' => 'ế' | 'Ể' => 'ể' | 'Ễ' => 'ễ' | 'Ệ' => 'ệ'
  | 'Ì' => 'ì' | 'Í' => 'í' | 'Ỉ' => 'ỉ' | 'Ĩ' => 'ĩ' | 'Ị' => 'ị'
  | 'Ò' => 'ò' | 'Ó' => 'ó' | 'Ỏ' => 'ỏ' | 'Õ' => 'õ' | 'Ọ' => 'ọ'
  | 'Ô' => 'ô' | 'Ồ' => 'ồ' | 'Ố' => 'ố' | 'Ổ' => 'ổ' | 'Ỗ' => 'ỗ' | 'Ộ' => 'ộ'
  | 'Ơ' => 'ơ' | 'Ờ' => 'ờ' | 'Ớ' => 'ớ' | 'Ở' => 'ở' | 'Ỡ' => 'ỡ' | 'Ợ' => 'ợ'
  | 'Ù' => 'ù' | 'Ú' => 'ú' | 'Ủ' => 'ủ' | 'Ũ' => 'ũ' | 'Ụ' => 'ụ'
  | 'Ư' => 'ư' | 'Ừ' => 'ừ' | 'Ứ' => 'ứ' | 'Ử' => 'ử' | 'Ữ' => 'ữ' | 'Ự' => 'ự'
  | 'Ỳ' => 'ỳ' | 'Ý' => 'ý' | 'Ỷ' => 'ỷ' | 'Ỹ' => 'ỹ' | 'Ỵ' => 'ỵ'
  | 'Đ' => 'đ'
  | _ => c.toLower

/-- Python str.upper for the same character domain (used by
expand_abbreviations); identity elsewhere. -/
def pyUpper (c : Char) : Char :=
  match c with
  | 'à' => 'À' | 'á' => 'Á' | 'ả' => 'Ả' | 'ã' => 'Ã' | 'ạ' => 'Ạ'
  | 'ă' => 'Ă' | 'ằ' => 'Ằ' | 'ắ' => 'Ắ' | 'ẳ' => 'Ẳ' | 'ẵ' => 'Ẵ' | 'ặ' => 'Ặ'
  | 'â' => 'Â' | 'ầ' => 'Ầ' | 'ấ' => 'Ấ' | 'ẩ' => 'Ẩ' | 'ẫ' => 'Ẫ' | 'ậ' => 'Ậ'
  | 'è' => 'È' | 'é' => 'É' | 'ẻ' => 'Ẻ' | 'ẽ' => 'Ẽ' | 'ẹ' => 'Ẹ'
  | 'ê' => 'Ê' | 'ề' => 'Ề' | 'ế' => 'Ế' | 'ể' => 'Ể' | 'ễ' => 'Ễ' | 'ệ' => 'Ệ'
  | 'ì' => 'Ì' | 'í' => 'Í' | 'ỉ' => 'Ỉ' | 'ĩ' => 'Ĩ' | 'ị' => 'Ị'
  | 'ò' => 'Ò' | 'ó' => 'Ó' | 'ỏ' => 'Ỏ' | 'õ' => 'Õ' | 'ọ' => 'Ọ'
  | 'ô' => 'Ô' | 'ồ' => 'Ồ' | 'ố' => 'Ố' | 'ổ' => 'Ổ' | 'ỗ' => 'Ỗ' | 'ộ' => 'Ộ'
  | 'ơ' => 'Ơ' | 'ờ' => 'Ờ' | 'ớ' => 'Ớ' | 'ở' => 'Ở' | 'ỡ' => 'Ỡ' | 'ợ' => 'Ợ'
  | 'ù' => 'Ù' | 'ú' => 'Ú' | 'ủ' => 'Ủ' | 'ũ' => 'Ũ' | 'ụ' => 'Ụ'
  | 'ư' => 'Ư' | 'ừ' => 'Ừ' | 'ứ' => 'Ứ' | 'ử' => 'Ử' | 'ữ' => 'Ữ' | 'ự' => 'Ự'
  | 'ỳ' => 'Ỳ' | 'ý' => 'Ý' | 'ỷ' => 'Ỷ' | 'ỹ' => 'Ỹ' | 'ỵ' => 'Ỵ'
  | 'đ' => 'Đ'
  | _ => c.toUpper

/-- Base letter of the NFD decomposition for the precomposed Vietnamese
lowercase letters (their combining marks are removed by the category filter);
identity elsewhere. The letter d-with-stroke does not decompose and is handled
by a separate replacement in the source. -/
def nfdBase (c : Char) : Char :=
  match c with
  | 'à' | 'á' | 'ả' | 'ã' | 'ạ' | 'ă' | 'ằ' | 'ắ' | 'ẳ' | 'ẵ' | 'ặ'
  | 'â' | 'ầ' | 'ấ' | 'ẩ' | 'ẫ' | 'ậ' => 'a'
  | 'è' | 'é' | 'ẻ' | 'ẽ' | 'ẹ' | 'ê' | 'ề' | 'ế' | 'ể' | 'ễ' | 'ệ' => 'e'
  | 'ì' | 'í' | 'ỉ' | 'ĩ' | 'ị' => 'i'
  | 'ò' | 'ó' | 'ỏ' | 'õ' | 'ọ' | 'ô' | 'ồ' | 'ố' | 'ổ' | 'ỗ' | 'ộ'
  | 'ơ' | 'ờ' | 'ớ' | 'ở' | 'ỡ' | 'ợ' => 'o'
  | 'ù' | 'ú' | 'ủ' | 'ũ' | 'ụ' | 'ư' | 'ừ' | 'ứ' | 'ử' | 'ữ' | 'ự' => 'u'
  | 'ỳ' | 'ý' | 'ỷ' | 'ỹ' | 'ỵ' => 'y'
  | _ => c

/-- Combining diacritical marks (category Mn for this character domain),
removed after NFD decomposition. -/
def isMnChar (c : Char) : Bool := 0x300 ≤ c.toNat && c.toNat ≤ 0x36F

/-- The unicodedata NFD step followed by removal of category-Mn characters. -/
def stripMarks (l : List Char) : List Char :=
  (l.map nfdBase).filter (fun c => !(isMnChar c))

/-- The character class of the slug regex: lowercase ASCII letters and digits. -/
def isSlugAlnum (c : Char) : Bool := c.isLower || c.isDigit

/-- The re.sub replacing each maximal run of characters outside the slug
class by a single dash. -/
def subNonAlnum : List Char → List Char
  | [] => []
  | c :: cs =>
      let acc := subNonAlnum cs
      if isSlugAlnum c then c :: acc
      else if acc.head? = some '-' then acc else '-' :: acc

/-- The re.sub collapsing each run of two or more dashes to a single dash. -/
def collapseDashes : List Char → List Char
  | [] => []
  | c :: cs =>
      let acc := collapseDashes cs
      if c = '-' ∧ acc.head? = some '-' then acc else c :: acc

/-- Python str.strip with a dash argument: drop dashes from both ends. -/
def stripDashes (l : List Char) : List Char :=
  ((l.dropWhile (fun c => c == '-')).reverse.dropWhile (fun c => c == '-')).reverse

/-- src/main.py slugify_vi: strip, empty check, lowercase, NFD with mark
removal, replace the letter d-with-stroke by d, replace non-alphanumeric runs
by one dash, collapse dash runs, trim dashes at both ends. -/
def slugify_vi (s : String) : String :=
  let l0 := pyStripChars s.data
  if l0 = [] then "" else
  let l1 := l0.map pyLower
  let l2 := stripMarks l1
  let l3 := l2.map (fun c => if c = 'đ' ∨ c = 'Đ' then 'd' else c)
  String.mk (stripDashes (collapseDashes (subNonAlnum l3)))

/-- No two adjacent dashes anywhere in the list. -/
def noDoubleDash : List Char → Bool
  | [] => true
  | [_] => true
  | a :: b :: t => !(a = '-' && b = '-') && noDoubleDash (b :: t)

/-- Unfolding equation of noDoubleDash on two cons cells. -/
theorem noDD_cons_cons (a b : Char) (t : List Char) :
    noDoubleDash (a :: b :: t) = (!(a = '-' && b = '-') && noDoubleDash (b :: t)) := rfl

/-- noDoubleDash restated as a chain of pairwise conditions. -/
theorem noDD_iff_chain' (l : List Char) :
    noDoubleDash l = true ↔ List.Chain' (fun a b => ¬(a = '-' ∧ b = '-')) l := by
  induction l with
  | nil => simp [noDoubleDash]
  | cons a t ih =>
    cases t with
    | nil => simp [noDoubleDash]
    | cons b t2 =>
      rw [List.chain'_cons, ← ih, noDD_cons_cons]
      simp only [Bool.and_eq_true, Bool.not_eq_true', Bool.and_eq_false_iff]
      constructor
      · rintro ⟨h1, h2⟩
        refine ⟨?_, h2⟩
        rintro ⟨rfl, rfl⟩
        rcases h1 with h1 | h1 <;> simp at h1
      · rintro ⟨h1, h2⟩
        refine ⟨?_, h2⟩
        by_cases ha : a = '-'
        · by_cases hb : b = '-'
          · exact absurd ⟨ha, hb⟩ h1
          · right
            simp [hb]
        · left
          simp [ha]

/-- The tail of a no-double-dash list has no double dash. -/
theorem noDD_tail {a : Char} {l : List Char} (h : noDoubleDash (a :: l) = true) :
    noDoubleDash l = true := by
  cases l with
  | nil => rfl
  | cons b t =>
    rw [noDD_cons_cons] at h
    simp only [Bool.and_eq_true] at h
    exact h.2

/-- Prepending a character keeps the no-double-dash property when the new
pair is not two dashes. -/
theorem noDD_cons {c : Char} {l : List Char} (h : noDoubleDash l = true)
    (hc : c ≠ '-' ∨ l.head? ≠ some '-') : noDoubleDash (c :: l) = true := by
  cases l with
  | nil => rfl
  | cons b t =>
    rw [noDD_cons_cons, Bool.and_eq_true]
    refine ⟨?_, h⟩
    simp only [Bool.not_eq_true', Bool.and_eq_false_iff]
    rcases hc with hc | hc
    · left
      simp [hc]
    · right
      simp only [List.head?_cons, ne_eq, Option.some.injEq] at hc
      simp [hc]

/-- Every character emitted by subNonAlnum is alphanumeric or a dash. -/
theorem mem_subNonAlnum {l : List Char} {c : Char} (h : c ∈ subNonAlnum l) :
    isSlugAlnum c = true ∨ c = '-' := by
  induction l with
  | nil => simp [subNonAlnum] at h
  | cons a t ih =>
    unfold subNonAlnum at h
    by_cases ha : isSlugAlnum a
    · rw [if_pos ha] at h
      rcases List.mem_cons.mp h with h' | h'
      · exact Or.inl (h' ▸ ha)
      · exact ih h'
    · rw [if_neg ha] at h
      by_cases hh : (subNonAlnum t).head? = some '-'
      · rw [if_pos hh] at h
        exact ih h
      · rw [if_neg hh] at h
        rcases List.mem_cons.mp h with h' | h'
        · exact Or.inr h'
        · exact ih h'

/-- subNonAlnum never emits two adjacent dashes. -/
theorem subNonAlnum_noDD (l : List Char) : noDoubleDash (subNonAlnum l) = true := by
  induction l with
  | nil => rfl
  | cons a t ih =>
    unfold subNonAlnum
    by_cases ha : isSlugAlnum a
    · rw [if_pos ha]
      refine noDD_cons ih (Or.inl ?_)
      rintro rfl
      exact absurd ha (by decide)
    · rw [if_neg ha]
      by_cases hh : (subNonAlnum t).head? = some '-'
      · rw [if_pos hh]
        exact ih
      · rw [if_neg hh]
        exact noDD_cons ih (Or.inr hh)

/-- collapseDashes emits no two adjacent dashes, for every input. -/
theorem collapseDashes_noDD (l : List Char) :
    noDoubleDash (collapseDashes l) = true := by
  induction l with
  | nil => rfl
  | cons a t ih =>
    unfold collapseDashes
    by_cases h : a = '-' ∧ (collapseDashes t).head? = some '-'
    · rw [if_pos h]
      exact ih
    · rw [if_neg h]
      refine noDD_cons ih ?_
      by_cases ha : a = '-'
      · exact Or.inr (fun hh => h ⟨ha, hh⟩)
      · exact Or.inl ha

/-- collapseDashes only keeps characters of its input. -/
theorem mem_collapseDashes {l : List Char} {c : Char} (h : c ∈ collapseDashes l) :
    c ∈ l := by
  induction l with
  | nil => simp [collapseDashes] at h
  | cons a t ih =>
    unfold collapseDashes at h
    by_cases hc : a = '-' ∧ (collapseDashes t).head? = some '-'
    · rw [if_pos hc] at h
      exact List.mem_cons_of_mem a (ih h)
    · rw [if_neg hc] at h
      rcases List.mem_cons.mp h with h' | h'
      · exact h' ▸ List.mem_cons_self a t
      · exact List.mem_cons_of_mem a (ih h')

/-- The head of a dropWhile result never satisfies the dropped predicate. -/
theorem head?_dropWhile_ne {p : Char → Bool} {l : List Char} {a : Char}
    (h : (l.dropWhile p).head? = some a) : p a = false := by
  induction l with
  | nil => simp [List.dropWhile] at h
  | cons b t ih =>
    rw [List.dropWhile_cons] at h
    by_cases hb : p b = true
    · rw [if_pos hb] at h
      exact ih h
    · rw [if_neg hb] at h
      rw [List.head?_cons, Option.some.injEq] at h
      subst h
      simpa using hb

/-- A nonempty dropWhile result keeps the last element of the list. -/
theorem getLast?_dropWhile {p : Char → Bool} {l : List Char}
    (h : l.dropWhile p ≠ []) : (l.dropWhile p).getLast? = l.getLast? := by
  have hdec : l.takeWhile p ++ l.dropWhile p = l := List.takeWhile_append_dropWhile p l
  conv_rhs => rw [← hdec]
  rw [List.getLast?_append_of_ne_nil _ h]

/-- stripDashes keeps only characters of its input. -/
theorem mem_stripDashes {l : List Char} {c : Char} (h : c ∈ stripDashes l) :
    c ∈ l := by
  unfold stripDashes at h
  rw [List.mem_reverse] at h
  have h1 := List.Sublist.mem h (List.dropWhile_sublist (fun c => c == '-'))
  rw [List.mem_reverse] at h1
  exact List.Sublist.mem h1 (List.dropWhile_sublist (fun c => c == '-'))

/-- dropWhile preserves the no-double-dash property. -/
theorem noDD_dropWhile {p : Char → Bool} {l : List Char}
    (h : noDoubleDash l = true) : noDoubleDash (l.dropWhile p) = true := by
  induction l with
  | nil => rfl
  | cons a t ih =>
    rw [List.dropWhile_cons]
    by_cases ha : p a = true
    · simp only [ha, if_true]
      exact ih (noDD_tail h)
    · simp only [ha, if_false]
      exact h

/-- Reversal preserves the no-double-dash property. -/
theorem noDD_reverse {l : List Char} (h : noDoubleDash l = true) :
    noDoubleDash l.reverse = true := by
  rw [noDD_iff_chain'] at h ⊢
  rw [List.chain'_reverse]
  exact List.Chain'.imp (fun a b hab => fun ⟨h1, h2⟩ => hab ⟨h2, h1⟩) h

/-- stripDashes preserves the no-double-dash property. -/
theorem noDD_stripDashes {l : List Char} (h : noDoubleDash l = true) :
    noDoubleDash (stripDashes l) = true := by
  unfold stripDashes
  exact noDD_reverse (noDD_dropWhile (noDD_reverse (noDD_dropWhile h)))

/-- stripDashes never starts or ends with a dash. -/
theorem stripDashes_ends (l : List Char) :
    (stripDashes l).head? ≠ some '-' ∧ (stripDashes l).getLast? ≠ some '-' := by
  unfold stripDashes
  constructor
  · rw [List.head?_reverse]
    by_cases hne : (l.dropWhile (fun c => c == '-')).reverse.dropWhile (fun c => c == '-') = []
    · rw [hne]
      simp
    · rw [getLast?_dropWhile hne, List.getLast?_reverse]
      intro hc
      exact absurd (head?_dropWhile_ne hc) (by decide)
  · rw [List.getLast?_reverse]
    intro hc
    exact absurd (head?_dropWhile_ne hc) (by decide)

/-- C9: slug generation is a deterministic function whose output contains only
lowercase ASCII letters, digits, and dashes, with no leading dash, no trailing
dash, and no doubled dash; diacritics are stripped and the letter
d-with-stroke maps to d, as shown at a concrete Vietnamese name. -/
theorem slugify_vi_shape :
    (∀ s : String,
      (∀ c ∈ (slugify_vi s).data, isSlugAlnum c = true ∨ c = '-') ∧
      noDoubleDash (slugify_vi s).data = true ∧
      (slugify_vi s).data.head? ≠ some '-' ∧
      (slugify_vi s).data.getLast? ≠ some '-') ∧
    slugify_vi "CÔNG TY TNHH ĐẦU TƯ" = "cong-ty-tnhh-dau-tu" ∧
    slugify_vi " Đường  9--A " = "duong-9-a" := by
  refine ⟨?_, by decide, by decide⟩
  intro s
  unfold slugify_vi
  by_cases h0 : pyStripChars s.data = []
  · rw [if_pos h0]
    refine ⟨?_, by decide, by decide, by decide⟩
    intro c hc
    simp [String.data] at hc
  · rw [if_neg h0]
    refine ⟨?_, ?_, ?_, ?_⟩
    · intro c hc
      exact mem_subNonAlnum (mem_collapseDashes (mem_stripDashes hc))
    · exact noDD_stripDashes (collapseDashes_noDD _)
    · exact (stripDashes_ends _).1
    · exact (stripDashes_ends _).2

/-- Witness for C9: the shape facts evaluated at a concrete input. -/
theorem slugify_vi_shape_witness :
    isSlugAlnum 'c' = true ∨ 'c' = '-' :=
  (slugify_vi_shape.1 "Công Ty").1 'c' (by decide)

/-! ### Backoff controller: request_json_with_retry -/

/-- Parsed JSON values, the possible results of resp.json(). -/
inductive Json where
  | null : Json
  | str : String → Json
  | num : ℚ → Json
  | bool : Bool → Json
  | arr : List Json → Json
  | obj : List (String × Json) → Json

/-- Classification of one HTTP attempt as branched on by the retry loop:
a 429 response (with its optional Retry-After header, which either parses as
a float or does not), a 5xx response, a response whose raise_for_status or
whose transport raised an exception, a success whose body is not JSON, and a
success carrying a JSON document. -/
inductive ApiResp where
  | resp429 : Option (Option ℚ) → ApiResp
  | resp5xx : ApiResp
  | raiseExc : String → ApiResp
  | okNonJson : String → ApiResp
  | okJson : Json → ApiResp

/-- src/main.py API_MAX_RETRIES. -/
def API_MAX_RETRIES : Nat := 5

/-- src/main.py API_BACKOFF_BASE. -/
def API_BACKOFF_BASE : ℚ := 2

/-- src/main.py API_BACKOFF_CAP. -/
def API_BACKOFF_CAP : ℚ := 60

/-- The backoff formula min(cap, base to the attempt plus jitter); the jitter
drawn by random.uniform(0, 1.5) is supplied as an oracle sequence. -/
def backoffWait (jitter : Nat → ℚ) (attempt : Nat) : ℚ :=
  min API_BACKOFF_CAP (API_BACKOFF_BASE ^ attempt + jitter attempt)

/-- Result of the retry loop: the returned JSON or the raised exception
(rendered as its message), the sleeps performed, and the number of HTTP
requests issued. -/
structure RetryOutcome where
  result : Except String Json
  waits : List ℚ
  requests : Nat

/-- The loop body of src/main.py request_json_with_retry from a given attempt
index: responses and jitter are supplied by oracles.  A 429 waits the
Retry-After value when it parses, else the backoff formula, and continues; a
5xx waits the backoff formula and continues; an exception or a non-JSON body
continues with backoff unless this is the last attempt, in which case the
last exception (respectively a ValueError with the parse diagnostic) is
raised; a JSON body returns.  Falling off the loop raises
RuntimeError unreachable. -/
def retryFrom (resps : Nat → ApiResp) (jitter : Nat → ℚ)
    (attempt : Nat) (lastExc : Option String) : RetryOutcome :=
  if h : attempt < API_MAX_RETRIES then
      match resps attempt with
      | .okJson js => ⟨.ok js, [], 1⟩
      | .resp429 ra =>
          let w := match ra with
            | some (some q) => q
            | some none => backoffWait jitter attempt
            | none => backoffWait jitter attempt
          let rest := retryFrom resps jitter (attempt + 1) lastExc
          ⟨rest.result, w :: rest.waits, rest.requests + 1⟩
      | .resp5xx =>
          let w := backoffWait jitter attempt
          let rest := retryFrom resps jitter (attempt + 1) lastExc
          ⟨rest.result, w :: rest.waits, rest.requests + 1⟩
      | .okNonJson jerr =>
          if attempt < API_MAX_RETRIES - 1 then
            let w := backoffWait jitter attempt
            let rest := retryFrom resps jitter (attempt + 1) lastExc
            ⟨rest.result, w :: rest.waits, rest.requests + 1⟩
          else ⟨.error jerr, [], 1⟩
      | .raiseExc e =>
          if attempt < API_MAX_RETRIES - 1 then
            let w := backoffWait jitter attempt
            let rest := retryFrom resps jitter (attempt + 1) (some e)
            ⟨rest.result, w :: rest.waits, rest.requests + 1⟩
          else ⟨.error e, [], 1⟩
  else ⟨.error "RuntimeError: unreachable", [], 0⟩
termination_by API_MAX_RETRIES - attempt
decreasing_by all_goals (simp_wf; omega)

/-- src/main.py request_json_with_retry. -/
def request_json_with_retry (resps : Nat → ApiResp) (jitter : Nat → ℚ) :
    RetryOutcome :=
  retryFrom resps jitter 0 none

/-- A call sequence answering every attempt with HTTP 429 and no Retry-After
header. -/
def all429 : Nat → ApiResp := fun _ => ApiResp.resp429 none

/-- An adversarial but admissible jitter draw: 1.4 seconds on the first
attempt, zero afterwards. -/
def jitterSpike : Nat → ℚ := fun n => if n = 0 then 7/5 else 0

/-- The zero jitter draw. -/
def jitterZero : Nat → ℚ := fun _ => 0

/-- Closed-form run of the retry loop against five consecutive 429 responses
with no Retry-After header: five requests, five backoff sleeps, and the final
RuntimeError raised by the line the source marks unreachable. -/
theorem all429_eval (jitter : Nat → ℚ) :
    request_json_with_retry all429 jitter =
      ⟨.error "RuntimeError: unreachable",
       [backoffWait jitter 0, backoffWait jitter 1, backoffWait jitter 2,
        backoffWait jitter 3, backoffWait jitter 4], 5⟩ := by
  show retryFrom all429 jitter 0 none = _
  simp [retryFrom, all429, API_MAX_RETRIES]

/-- Closed-form run against five consecutive 5xx responses. -/
theorem all5xx_eval (jitter : Nat → ℚ) :
    request_json_with_retry (fun _ => ApiResp.resp5xx) jitter =
      ⟨.error "RuntimeError: unreachable",
       [backoffWait jitter 0, backoffWait jitter 1, backoffWait jitter 2,
        backoffWait jitter 3, backoffWait jitter 4], 5⟩ := by
  show retryFrom (fun _ => ApiResp.resp5xx) jitter 0 none = _
  simp [retryFrom, API_MAX_RETRIES]

/-- Closed-form run against five consecutive transport exceptions: the last
observed exception is raised after four backoff sleeps. -/
theorem allExc_eval (es : Nat → String) (jitter : Nat → ℚ) :
    request_json_with_retry (fun i => ApiResp.raiseExc (es i)) jitter =
      ⟨.error (es 4),
       [backoffWait jitter 0, backoffWait jitter 1, backoffWait jitter 2,
        backoffWait jitter 3], 5⟩ := by
  show retryFrom (fun i => ApiResp.raiseExc (es i)) jitter 0 none = _
  simp [retryFrom, API_MAX_RETRIES]

/-- C3 counterexample: with the admissible jitter draw 1.4 on the first
attempt and 0 on the second, the first two waits of an all-429 run are 2.4
and 2 seconds — the wait sequence strictly decreases, refuting the claimed
non-decreasing discipline. -/
theorem backoff_nondecreasing_counterexample :
    jitterSpike 0 = 7/5 ∧ jitterSpike 1 = 0 ∧
    (0:ℚ) ≤ 7/5 ∧ (7:ℚ)/5 ≤ 3/2 ∧
    (request_json_with_retry all429 jitterSpike).waits = [12/5, 2, 4, 8, 16] ∧
    ¬ List.Chain' (· ≤ ·) (request_json_with_retry all429 jitterSpike).waits := by
  have hw : (request_json_with_retry all429 jitterSpike).waits = [12/5, 2, 4, 8, 16] := by
    rw [all429_eval]
    simp [backoffWait, jitterSpike, API_BACKOFF_CAP, API_BACKOFF_BASE]
    norm_num
  refine ⟨rfl, rfl, by norm_num, by norm_num, hw, ?_⟩
  rw [hw]
  simp only [List.chain'_cons, List.chain'_singleton, and_true]
  intro h
  have := h.1
  norm_num at this

/-- The wait at one attempt exceeds the wait at the next attempt by at most
the jitter amplitude 1.5, for every admissible jitter draw. -/
theorem backoffWait_quasi_mono {jitter : Nat → ℚ} (i : Nat)
    (h1 : jitter i ≤ 3/2) (h2 : 0 ≤ jitter (i+1)) :
    backoffWait jitter i - 3/2 ≤ backoffWait jitter (i+1) := by
  unfold backoffWait API_BACKOFF_CAP API_BACKOFF_BASE
  have hp : (0:ℚ) < 2 ^ i := pow_pos (by norm_num) i
  apply le_min
  · have := min_le_left (60:ℚ) (2 ^ i + jitter i)
    linarith
  · have := min_le_right (60:ℚ) (2 ^ i + jitter i)
    have hpow : (2:ℚ) ^ (i+1) = 2 ^ i * 2 := pow_succ 2 i
    linarith

/-- The number of HTTP requests issued from a given attempt index never
exceeds the remaining attempt budget. -/
theorem retryFrom_requests_le (resps : Nat → ApiResp) (jitter : Nat → ℚ) :
    ∀ fuel attempt lastExc, API_MAX_RETRIES ≤ attempt + fuel →
      (retryFrom resps jitter attempt lastExc).requests ≤
        API_MAX_RETRIES - attempt := by
  intro fuel
  induction fuel with
  | zero =>
    intro attempt lastExc h
    rw [retryFrom.eq_def, dif_neg (by omega)]
    show 0 ≤ API_MAX_RETRIES - attempt
    omega
  | succ n ih =>
    intro attempt lastExc h
    rw [retryFrom.eq_def]
    by_cases hlt : attempt < API_MAX_RETRIES
    · rw [dif_pos hlt]
      have hrec : ∀ le₂ : Option String,
          (retryFrom resps jitter (attempt+1) le₂).requests ≤
            API_MAX_RETRIES - (attempt+1) :=
        fun le₂ => ih (attempt+1) le₂ (by omega)
      split
      · show 1 ≤ API_MAX_RETRIES - attempt
        omega
      · show (retryFrom resps jitter (attempt+1) lastExc).requests + 1 ≤
          API_MAX_RETRIES - attempt
        have := hrec lastExc
        omega
      · show (retryFrom resps jitter (attempt+1) lastExc).requests + 1 ≤
          API_MAX_RETRIES - attempt
        have := hrec lastExc
        omega
      · by_cases h4 : attempt < API_MAX_RETRIES - 1
        · rw [if_pos h4]
          show (retryFrom resps jitter (attempt+1) lastExc).requests + 1 ≤
            API_MAX_RETRIES - attempt
          have := hrec lastExc
          omega
        · rw [if_neg h4]
          show 1 ≤ API_MAX_RETRIES - attempt
          omega
      · rename_i e heq
        by_cases h4 : attempt < API_MAX_RETRIES - 1
        · rw [if_pos h4]
          show (retryFrom resps jitter (attempt+1) (some e)).requests + 1 ≤
            API_MAX_RETRIES - attempt
          have := hrec (some e)
          omega
        · rw [if_neg h4]
          show 1 ≤ API_MAX_RETRIES - attempt
          omega
    · rw [dif_neg hlt]
      show 0 ≤ API_MAX_RETRIES - attempt
      omega

/-- C3 amended: across a run of five consecutive 429 responses with no
Retry-After header and admissible jitter in the interval from 0 to 1.5, the
loop issues exactly five requests (a sixth attempt never occurs, and never
occurs for any response sequence), every wait is bounded by the 60-second
cap, and each wait drops below its predecessor by at most the jitter
amplitude 1.5 — the waits are non-decreasing only up to jitter, not
pointwise. -/
theorem backoff_discipline :
    (∀ (resps : Nat → ApiResp) (jitter : Nat → ℚ),
      (request_json_with_retry resps jitter).requests ≤ API_MAX_RETRIES) ∧
    (∀ jitter : Nat → ℚ, (∀ i, 0 ≤ jitter i ∧ jitter i ≤ 3/2) →
      (request_json_with_retry all429 jitter).requests = API_MAX_RETRIES ∧
      (request_json_with_retry all429 jitter).waits.length = 5 ∧
      (∀ w ∈ (request_json_with_retry all429 jitter).waits, w ≤ API_BACKOFF_CAP) ∧
      (∀ i, i + 1 < 5 →
        (request_json_with_retry all429 jitter).waits.getD i 0 - 3/2 ≤
          (request_json_with_retry all429 jitter).waits.getD (i+1) 0)) := by
  constructor
  · intro resps jitter
    have := retryFrom_requests_le resps jitter API_MAX_RETRIES 0 none (by omega)
    simpa [request_json_with_retry] using this
  · intro jitter hj
    rw [all429_eval]
    refine ⟨rfl, rfl, ?_, ?_⟩
    · intro w hw
      simp only [List.mem_cons, List.not_mem_nil, or_false] at hw
      rcases hw with rfl | rfl | rfl | rfl | rfl <;>
        exact min_le_left _ _
    · intro i hi
      have h4 : i < 4 := by omega
      interval_cases i <;>
        exact backoffWait_quasi_mono _ (hj _).2 (hj _).1

/-- Witness for amended C3 at the zero jitter draw. -/
theorem backoff_discipline_witness :
    (request_json_with_retry all429 jitterZero).requests = API_MAX_RETRIES ∧
    (request_json_with_retry all429 jitterZero).waits.getD 0 0 - 3/2 ≤
      (request_json_with_retry all429 jitterZero).waits.getD 1 0 := by
  have h := backoff_discipline.2 jitterZero
    (fun i => ⟨by norm_num [jitterZero], by norm_num [jitterZero]⟩)
  exact ⟨h.1, h.2.2.2 0 (by norm_num)⟩

/-! ### Name expansion and link synthesis -/

/-- dropWhile never lengthens a list. -/
theorem length_dropWhile_le (p : Char → Bool) (l : List Char) :
    (l.dropWhile p).length ≤ l.length := by
  induction l with
  | nil => simp [List.dropWhile]
  | cons a t ih =>
    rw [List.dropWhile_cons]
    by_cases h : p a = true
    · rw [if_pos h]
      simp only [List.length_cons]
      omega
    · rw [if_neg h]

/-- The re.sub of clean_text: replace each maximal whitespace run by one
space. -/
def collapseWs : List Char → List Char
  | [] => []
  | c :: cs =>
      let acc := collapseWs cs
      if isPyWs c then (if acc.head? = some ' ' then acc else ' ' :: acc)
      else c :: acc

/-- src/main.py clean_text over characters: collapse whitespace runs, then
strip. -/
def clean_text_chars (l : List Char) : List Char := pyStripChars (collapseWs l)

/-- The punctuation separators of the expand_abbreviations split regex. -/
def isSplitSep (c : Char) : Bool := c == '-' || c == '/' || c == '.'

/-- src/main.py abbreviation_map. -/
def abbreviation_map : List (String × String) :=
  [("CT", "CÔNG TY"),
   ("CTY", "CÔNG TY"),
   ("TNHH", "TRÁCH NHIỆM HỮU HẠN"),
   ("CP", "CỔ PHẦN"),
   ("TM", "THƯƠNG MẠI"),
   ("DV", "DỊCH VỤ"),
   ("XD", "XÂY DỰNG"),
   ("KT", "KỸ THUẬT"),
   ("ĐT", "ĐẦU TƯ"),
   ("DT", "ĐẦU TƯ"),
   ("CTGT", "CÔNG TRÌNH GIAO THÔNG"),
   ("MTV", "MỘT THÀNH VIÊN"),
   ("VLXD", "VẬT LIỆU XÂY DỰNG"),
   ("SX", "SẢN XUẤT"),
   ("GT", "GIAO THÔNG")]

/-- The re.split of expand_abbreviations with its capturing separator group:
the string is cut into maximal whitespace runs, single punctuation
separators, and maximal text runs.  The empty text tokens the Python split
inserts between adjacent separators map to themselves and contribute nothing
to the rejoined output, so they are omitted here.  The recursion is driven
by a character budget: every step consumes at least one character, so a
budget of the input length is exact. -/
def tokenizeF : Nat → List Char → List (List Char)
  | _, [] => []
  | 0, _ :: _ => []
  | fuel + 1, c :: cs =>
    if isPyWs c then
      (c :: cs.takeWhile isPyWs) :: tokenizeF fuel (cs.dropWhile isPyWs)
    else if isSplitSep c then
      [c] :: tokenizeF fuel cs
    else
      (c :: cs.takeWhile (fun d => !(isPyWs d || isSplitSep d))) ::
        tokenizeF fuel (cs.dropWhile (fun d => !(isPyWs d || isSplitSep d)))

/-- The token list of a string: the budget is the string length. -/
def tokenize (l : List Char) : List (List Char) := tokenizeF l.length l

/-- The per-token step of expand_abbreviations: whitespace-only tokens are
appended unchanged; other tokens are looked up (stripped) in the table,
defaulting to the token itself. -/
def mapToken (t : List Char) : List Char :=
  if pyStripChars t = [] then t
  else
    match abbreviation_map.lookup (String.mk (pyStripChars t)) with
    | some v => v.data
    | none => t

/-- src/main.py expand_abbreviations: clean the name, return empty when
blank, uppercase, split keeping separators, map each token through the
abbreviation table, and rejoin. -/
def expand_abbreviations (s : String) : String :=
  let cleaned := clean_text_chars s.data
  if cleaned = [] then ""
  else String.mk (((tokenize (cleaned.map pyUpper)).map mapToken).flatten)

/-- src/main.py build_masothue_link. -/
def build_masothue_link (name mst : String) : String :=
  let mst_n := normalize_mst mst
  let slug := slugify_vi name
  if mst_n = "" ∨ slug = "" then ""
  else "https://masothue.com/" ++ mst_n ++ "-" ++ slug

/-! ### The resolution engine: the per-row fallback chain of process_excel -/

/-- Outcomes of the external calls a row can make, supplied as an oracle: the
browser fetch of a url (masothue_open_link), the stripped name returned by
each name-lookup API or the exception it raised (api_vitax_get_name and
api_vietqr_get_name), and the two identifier searches
(masothue_search_by_mst and tvpl_search_by_mst).  Errors carry the rendered
exception message. -/
structure RegistryOracle where
  fetchByLink : String → Except String (List (String × String))
  vitaxName : String → Except String String
  vietqrName : String → Except String String
  masothueSearch : String → Except String (List (String × String))
  tvplSearch : String → Except String (List (String × String))

/-- External calls a row performs, recorded in order. -/
inductive TierCall where
  | fetchByLink : String → TierCall
  | apiVitax : String → TierCall
  | apiVietqr : String → TierCall
  | masothueSearch : String → TierCall
  | tvplSearch : String → TierCall
deriving DecidableEq

/-- src/main.py api_get_correct_name_for_failed_link together with the calls
it makes: vitax is tried first and vietqr second; a source that raises is
skipped, a source returning a non-empty name wins and labels itself, and
otherwise the pair of empty strings is returned — the function never
raises. -/
def api_get_correct_name_for_failed_link (o : RegistryOracle) (mst : String) :
    (String × String) × List TierCall :=
  let calls1 := [TierCall.apiVitax mst]
  let viet : (String × String) × List TierCall :=
    match o.vietqrName mst with
    | .ok name =>
        if name ≠ "" then ((name, "vietqr"), calls1 ++ [TierCall.apiVietqr mst])
        else (("", ""), calls1 ++ [TierCall.apiVietqr mst])
    | .error _ => (("", ""), calls1 ++ [TierCall.apiVietqr mst])
  match o.vitaxName mst with
  | .ok name => if name ≠ "" then ((name, "vitax"), calls1) else viet
  | .error _ => viet

/-- The per-row output cells of the process_excel loop, together with the
calls performed.  crawl_error_parts holds the per-tier components of the
crawl_error cell in order. -/
structure RowResult where
  crawl_status : String
  crawl_source : String
  crawl_error_parts : List String
  api_name : String
  api_source : String
  api_error : String
  link_masothue_api : String
  record : List (String × String)
  calls : List TierCall

/-- The crawl_error cell: the parts joined exactly as the f-string joins
them. -/
def RowResult.crawlError (r : RowResult) : String :=
  String.intercalate " | " r.crawl_error_parts

/-- One row of the process_excel resolution loop (src/main.py lines 515 to
597): try the synthesized link; on failure recover a name through the APIs
and, if one was found, retry the link rebuilt from it; then fall back to the
masothue identifier search, then the tvpl identifier search; record status,
source, api fields, the per-tier error components, and every call in
order. -/
def process_row (o : RegistryOracle) (mst link_mst : String) : RowResult :=
  match o.fetchByLink link_mst with
  | .ok kv =>
      { crawl_status := "ok_masothue_link", crawl_source := "customer_masothue_link",
        crawl_error_parts := [], api_name := "", api_source := "", api_error := "",
        link_masothue_api := "", record := kv,
        calls := [TierCall.fetchByLink link_mst] }
  | .error e1 =>
      let api := api_get_correct_name_for_failed_link o mst
      let name_api := api.1.1
      let src := api.1.2
      let calls0 := TierCall.fetchByLink link_mst :: api.2
      if name_api ≠ "" then
        let link2 := build_masothue_link name_api mst
        match o.fetchByLink link2 with
        | .ok kv2 =>
            { crawl_status := "ok_masothue_link",
              crawl_source := "api_masothue_link(" ++ src ++ ")",
              crawl_error_parts := [], api_name := name_api, api_source := src,
              api_error := "", link_masothue_api := link2, record := kv2,
              calls := calls0 ++ [TierCall.fetchByLink link2] }
        | .error e2 =>
            match o.masothueSearch mst with
            | .ok kv3 =>
                { crawl_status := "ok_masothue_search",
                  crawl_source := "fallback_search", crawl_error_parts := [],
                  api_name := name_api, api_source := src, api_error := "",
                  link_masothue_api := link2, record := kv3,
                  calls := calls0 ++ [TierCall.fetchByLink link2,
                    TierCall.masothueSearch mst] }
            | .error e3 =>
                match o.tvplSearch mst with
                | .ok kv4 =>
                    { crawl_status := "ok_tvpl_search",
                      crawl_source := "fallback_search", crawl_error_parts := [],
                      api_name := name_api, api_source := src, api_error := "",
                      link_masothue_api := link2, record := kv4,
                      calls := calls0 ++ [TierCall.fetchByLink link2,
                        TierCall.masothueSearch mst, TierCall.tvplSearch mst] }
                | .error e4 =>
                    { crawl_status := "error", crawl_source := "failed_all",
                      crawl_error_parts := ["e1=" ++ e1, "e2=" ++ e2,
                        "e3=" ++ e3, "e4=" ++ e4],
                      api_name := name_api, api_source := src, api_error := "",
                      link_masothue_api := link2, record := [],
                      calls := calls0 ++ [TierCall.fetchByLink link2,
                        TierCall.masothueSearch mst, TierCall.tvplSearch mst] }
      else
        let apiErr := "api_no_name_after_link_fail e1=" ++ e1
        match o.masothueSearch mst with
        | .ok kv3 =>
            { crawl_status := "ok_masothue_search",
              crawl_source := "fallback_search", crawl_error_parts := [],
              api_name := name_api, api_source := src, api_error := apiErr,
              link_masothue_api := "", record := kv3,
              calls := calls0 ++ [TierCall.masothueSearch mst] }
        | .error e3 =>
            match o.tvplSearch mst with
            | .ok kv4 =>
                { crawl_status := "ok_tvpl_search",
                  crawl_source := "fallback_search", crawl_error_parts := [],
                  api_name := name_api, api_source := src, api_error := apiErr,
                  link_masothue_api := "", record := kv4,
                  calls := calls0 ++ [TierCall.masothueSearch mst,
                    TierCall.tvplSearch mst] }
            | .error e4 =>
                { crawl_status := "error", crawl_source := "failed_all",
                  crawl_error_parts := ["e1=" ++ e1, "e3=" ++ e3, "e4=" ++ e4],
                  api_name := name_api, api_source := src, api_error := apiErr,
                  link_masothue_api := "", record := [],
                  calls := calls0 ++ [TierCall.masothueSearch mst,
                    TierCall.tvplSearch mst] }

/-- Row preparation of process_excel: the identifier column is normalized
once on load (read_excel) and once more in step 1. -/
def prep_mst_norm (mst_raw : String) : String :=
  normalize_mst (normalize_mst mst_raw)

/-- Step-1 link synthesis of process_excel: the slug of the
abbreviation-expanded customer name, concatenated with the normalized
identifier when both are non-empty. -/
def prep_link (mst_raw customer_name : String) : String :=
  let mst_norm := prep_mst_norm mst_raw
  let slug := slugify_vi (expand_abbreviations customer_name)
  if mst_norm ≠ "" ∧ slug ≠ "" then
    "https://masothue.com/" ++ mst_norm ++ "-" ++ slug
  else ""

/-- One full row of process_excel: preparation, the strips the loop applies
when reading the row cells back, then the resolution chain. -/
def process_excel_row (o : RegistryOracle) (mst_raw customer_name : String) :
    RowResult :=
  process_row o (pyStrip (prep_mst_norm mst_raw))
    (pyStrip (prep_link mst_raw customer_name))

/-- The name-recovery helper calls vitax alone, or vitax then vietqr. -/
theorem api_calls_shape (o : RegistryOracle) (mst : String) :
    (api_get_correct_name_for_failed_link o mst).2 = [TierCall.apiVitax mst] ∨
    (api_get_correct_name_for_failed_link o mst).2 =
      [TierCall.apiVitax mst, TierCall.apiVietqr mst] := by
  unfold api_get_correct_name_for_failed_link
  cases hv : o.vitaxName mst with
  | ok name =>
    by_cases hn : name ≠ ""
    · simp [hn]
    · cases hq : o.vietqrName mst with
      | ok name2 =>
        by_cases hn2 : name2 ≠ "" <;> simp [hn, hn2]
      | error e => simp [hn]
  | error e =>
    cases hq : o.vietqrName mst with
    | ok name2 =>
      by_cases hn2 : name2 ≠ "" <;> simp [hn2]
    | error e2 => simp

/-- On a successful fetch of the synthesized link the row is resolved from
that single call. -/
theorem process_row_success (o : RegistryOracle) (mst link : String)
    (kv : List (String × String)) (hf : o.fetchByLink link = .ok kv) :
    (process_row o mst link).crawl_status = "ok_masothue_link" ∧
    (process_row o mst link).crawl_source = "customer_masothue_link" ∧
    (process_row o mst link).record = kv ∧
    (process_row o mst link).calls = [TierCall.fetchByLink link] := by
  simp [process_row, hf]

/-- Every row starts by fetching the prepared link — also when that link is
empty. -/
theorem process_row_calls_head (o : RegistryOracle) (mst link : String) :
    (process_row o mst link).calls.head? = some (TierCall.fetchByLink link) := by
  cases hf : o.fetchByLink link with
  | ok kv => simp [process_row, hf]
  | error e1 =>
    by_cases hname : (api_get_correct_name_for_failed_link o mst).1.1 = ""
    · cases hms : o.masothueSearch mst with
      | ok kv3 => simp [process_row, hf, hname, hms]
      | error e3 =>
        cases htv : o.tvplSearch mst with
        | ok kv4 => simp [process_row, hf, hname, hms, htv]
        | error e4 => simp [process_row, hf, hname, hms, htv]
    · cases hf2 : o.fetchByLink
        (build_masothue_link (api_get_correct_name_for_failed_link o mst).1.1 mst) with
      | ok kv2 => simp [process_row, hf, hname, hf2]
      | error e2 =>
        cases hms : o.masothueSearch mst with
        | ok kv3 => simp [process_row, hf, hname, hf2, hms]
        | error e3 =>
          cases htv : o.tvplSearch mst with
          | ok kv4 => simp [process_row, hf, hname, hf2, hms, htv]
          | error e4 => simp [process_row, hf, hname, hf2, hms, htv]

/-- C1: when the DirectLink fetch of the synthesized link succeeds, the row
resolves with the customer-link status and source and performs no other
call; in general the name-recovery APIs run only after the link fetch
failed, the primary search runs only after the link fetch failed and name
recovery produced no name or its relink fetch failed, and the secondary
search runs only after the primary search failed. -/
theorem tier_short_circuit (o : RegistryOracle) (mst link : String) :
    (∀ kv, o.fetchByLink link = .ok kv →
      (process_row o mst link).crawl_status = "ok_masothue_link" ∧
      (process_row o mst link).crawl_source = "customer_masothue_link" ∧
      (process_row o mst link).calls = [TierCall.fetchByLink link]) ∧
    (TierCall.apiVitax mst ∈ (process_row o mst link).calls →
      ∃ e, o.fetchByLink link = .error e) ∧
    (TierCall.masothueSearch mst ∈ (process_row o mst link).calls →
      (∃ e, o.fetchByLink link = .error e) ∧
      ((api_get_correct_name_for_failed_link o mst).1.1 = "" ∨
        ∃ e, o.fetchByLink
          (build_masothue_link (api_get_correct_name_for_failed_link o mst).1.1 mst) =
            .error e)) ∧
    (TierCall.tvplSearch mst ∈ (process_row o mst link).calls →
      ∃ e, o.masothueSearch mst = .error e) := by
  have hshape := api_calls_shape o mst
  cases hf : o.fetchByLink link with
  | ok kv =>
    have hs := process_row_success o mst link kv hf
    refine ⟨fun kv' _ => ⟨hs.1, hs.2.1, hs.2.2.2⟩, ?_, ?_, ?_⟩ <;>
      (intro hmem; rw [hs.2.2.2] at hmem; simp at hmem)
  | error e1 =>
    refine ⟨?_, fun _ => ⟨e1, rfl⟩, ?_, ?_⟩
    · intro kv' hkv'
      exact absurd hkv' (by simp)
    · intro hmem
      refine ⟨⟨e1, rfl⟩, ?_⟩
      by_cases hname : (api_get_correct_name_for_failed_link o mst).1.1 = ""
      · exact Or.inl hname
      · right
        cases hf2 : o.fetchByLink
          (build_masothue_link (api_get_correct_name_for_failed_link o mst).1.1 mst) with
        | error e2 => exact ⟨e2, rfl⟩
        | ok kv2 =>
          exfalso
          rcases hshape with hsh | hsh <;>
            simp [process_row, hf, hname, hf2, hsh] at hmem
    · intro hmem
      cases hms : o.masothueSearch mst with
      | error e3 => exact ⟨e3, rfl⟩
      | ok kv3 =>
        exfalso
        by_cases hname : (api_get_correct_name_for_failed_link o mst).1.1 = ""
        · rcases hshape with hsh | hsh <;>
            simp [process_row, hf, hname, hms, hsh] at hmem
        · cases hf2 : o.fetchByLink
            (build_masothue_link (api_get_correct_name_for_failed_link o mst).1.1 mst) with
          | ok kv2 =>
            rcases hshape with hsh | hsh <;>
              simp [process_row, hf, hname, hf2, hsh] at hmem
          | error e2 =>
            rcases hshape with hsh | hsh <;>
              simp [process_row, hf, hname, hf2, hms, hsh] at hmem

/-- An oracle whose direct-link fetch succeeds. -/
def okLinkOracle : RegistryOracle :=
  { fetchByLink := fun _ => .ok [("name", "X")],
    vitaxName := fun _ => .error "never",
    vietqrName := fun _ => .error "never",
    masothueSearch := fun _ => .error "never",
    tvplSearch := fun _ => .error "never" }

/-- Witness for C1 at a concrete stubbed oracle. -/
theorem tier_short_circuit_witness :
    (process_row okLinkOracle "0312345678" "https://masothue.com/x").crawl_status =
      "ok_masothue_link" ∧
    (process_row okLinkOracle "0312345678" "https://masothue.com/x").crawl_source =
      "customer_masothue_link" ∧
    (process_row okLinkOracle "0312345678" "https://masothue.com/x").calls =
      [TierCall.fetchByLink "https://masothue.com/x"] :=
  (tier_short_circuit okLinkOracle "0312345678" "https://masothue.com/x").1
    [("name", "X")] rfl

/-- C2 amended: when every external call of a row fails, the terminal row
error carries the per-tier error components in tier order — four of them
(e1, e2, e3, e4) when name recovery produced a name whose relink fetch then
failed, but only three (e1, e3, e4) when name recovery produced no name, in
which case the name-recovery failure is recorded separately in the api_error
cell. -/
theorem chain_exhaustion (o : RegistryOracle) (mst link : String)
    (e1 : String) (hf : o.fetchByLink link = .error e1)
    (e3 : String) (hms : o.masothueSearch mst = .error e3)
    (e4 : String) (htv : o.tvplSearch mst = .error e4) :
    (∀ e2, (api_get_correct_name_for_failed_link o mst).1.1 ≠ "" →
      o.fetchByLink
        (build_masothue_link (api_get_correct_name_for_failed_link o mst).1.1 mst) =
          .error e2 →
      (process_row o mst link).crawl_status = "error" ∧
      (process_row o mst link).crawl_source = "failed_all" ∧
      (process_row o mst link).crawl_error_parts =
        ["e1=" ++ e1, "e2=" ++ e2, "e3=" ++ e3, "e4=" ++ e4] ∧
      (process_row o mst link).crawl_error_parts.length = 4) ∧
    ((api_get_correct_name_for_failed_link o mst).1.1 = "" →
      (process_row o mst link).crawl_status = "error" ∧
      (process_row o mst link).crawl_source = "failed_all" ∧
      (process_row o mst link).crawl_error_parts =
        ["e1=" ++ e1, "e3=" ++ e3, "e4=" ++ e4] ∧
      (process_row o mst link).api_error =
        "api_no_name_after_link_fail e1=" ++ e1) := by
  constructor
  · intro e2 hname hf2
    refine ⟨?_, ?_, ?_, ?_⟩ <;> simp [process_row, hf, hname, hf2, hms, htv]
  · intro hname
    refine ⟨?_, ?_, ?_, ?_⟩ <;> simp [process_row, hf, hname, hms, htv]

/-- An oracle on which every tier fails and the name APIs return no name. -/
def failOracleNoName : RegistryOracle :=
  { fetchByLink := fun _ => .error "link_failed",
    vitaxName := fun _ => .ok "",
    vietqrName := fun _ => .ok "",
    masothueSearch := fun _ => .error "ms_failed",
    tvplSearch := fun _ => .error "tvpl_failed" }

/-- An oracle on which every tier fails after the vitax API recovers a
name. -/
def failOracleWithName : RegistryOracle :=
  { fetchByLink := fun _ => .error "link_failed",
    vitaxName := fun _ => .ok "CONG TY ABC",
    vietqrName := fun _ => .ok "",
    masothueSearch := fun _ => .error "ms_failed",
    tvplSearch := fun _ => .error "tvpl_failed" }

/-- C2 counterexample: on a row where all four tiers fail but the name APIs
recover no name, the terminal error has three entries, not four — the
NameRecovery failure is only in api_error. -/
theorem chain_exhaustion_counterexample :
    (process_row failOracleNoName "0312345678" "lnk").crawl_status = "error" ∧
    (process_row failOracleNoName "0312345678" "lnk").crawl_source = "failed_all" ∧
    (process_row failOracleNoName "0312345678" "lnk").crawl_error_parts =
      ["e1=link_failed", "e3=ms_failed", "e4=tvpl_failed"] ∧
    (process_row failOracleNoName "0312345678" "lnk").crawl_error_parts.length = 3 ∧
    ¬ ((process_row failOracleNoName "0312345678" "lnk").crawl_error_parts.length = 4) ∧
    (process_row failOracleNoName "0312345678" "lnk").api_error =
      "api_no_name_after_link_fail e1=link_failed" := by
  refine ⟨rfl, rfl, rfl, rfl, by decide, rfl⟩

/-- Witness for amended C2: the four-entry audit trail at a concrete oracle
where a name is recovered and everything still fails. -/
theorem chain_exhaustion_witness :
    (process_row failOracleWithName "0312345678" "lnk").crawl_error_parts =
      ["e1=link_failed", "e2=link_failed", "e3=ms_failed", "e4=tvpl_failed"] :=
  ((chain_exhaustion failOracleWithName "0312345678" "lnk" "link_failed" rfl
      "ms_failed" rfl "tvpl_failed" rfl).1 "link_failed" (by decide) rfl).2.2.1

/-- An oracle whose two name APIs raise the given exceptions. -/
def errOracle (e e' : String) : RegistryOracle :=
  { fetchByLink := fun _ => .error "x",
    vitaxName := fun _ => .error e,
    vietqrName := fun _ => .error e',
    masothueSearch := fun _ => .error "x",
    tvplSearch := fun _ => .error "x" }

/-- C4, evaluated at the failing input: exhausting the attempt budget on five
429 responses (or five 5xx responses) raises RuntimeError unreachable — a
generic error carrying no information about the rate-limit fault — rather
than the last observed fault; exhaustion by repeated exceptions does raise
the last observed exception; and whatever the name-lookup call raises is
absorbed by api_get_correct_name_for_failed_link into the empty result, so
it never propagates past the resolution chain. -/
theorem backoff_exhaustion_fault :
    (request_json_with_retry all429 jitterZero).result =
      .error "RuntimeError: unreachable" ∧
    (request_json_with_retry (fun _ => ApiResp.resp5xx) jitterZero).result =
      .error "RuntimeError: unreachable" ∧
    (∀ es : Nat → String,
      (request_json_with_retry (fun i => ApiResp.raiseExc (es i)) jitterZero).result =
        .error (es 4)) ∧
    (∀ e e' mst,
      (api_get_correct_name_for_failed_link (errOracle e e') mst).1 = ("", "")) := by
  refine ⟨?_, ?_, ?_, ?_⟩
  · rw [all429_eval]
  · rw [all5xx_eval]
  · intro es
    rw [allExc_eval]
  · intro e e' mst
    rfl

/-- C5 amended: the synthesizer returns the empty link exactly when the
normalized identifier or the slug is empty, and otherwise the concatenated
registry url; the resolution chain, however, does not skip the DirectLink
tier on an empty link — every row's first external call fetches the
prepared link, whatever it is. -/
theorem empty_link_contract :
    (∀ name mst : String,
      ((normalize_mst mst = "" ∨ slugify_vi name = "") →
        build_masothue_link name mst = "") ∧
      (normalize_mst mst ≠ "" → slugify_vi name ≠ "" →
        build_masothue_link name mst =
          "https://masothue.com/" ++ normalize_mst mst ++ "-" ++ slugify_vi name)) ∧
    (∀ (o : RegistryOracle) (mst_raw name : String),
      (process_excel_row o mst_raw name).calls.head? =
        some (TierCall.fetchByLink (pyStrip (prep_link mst_raw name)))) := by
  constructor
  · intro name mst
    constructor
    · intro h
      unfold build_masothue_link
      rw [if_pos h]
    · intro h1 h2
      unfold build_masothue_link
      rw [if_neg (not_or.mpr ⟨h1, h2⟩)]
  · intro o mst_raw name
    exact process_row_calls_head o _ _

/-- C5 counterexample: with an empty identifier the synthesized link is
empty, yet the chain still calls fetchByLink on the empty link (its failure
then falls through to the later tiers); likewise for a name whose slug is
empty. -/
theorem empty_link_counterexample :
    prep_link "" "some name" = "" ∧
    prep_link "0312345678" "!!!" = "" ∧
    (process_excel_row failOracleNoName "" "some name").calls.head? =
      some (TierCall.fetchByLink "") ∧
    TierCall.fetchByLink "" ∈ (process_excel_row failOracleNoName "" "some name").calls := by
  refine ⟨rfl, by decide, rfl, by decide⟩

/-- Witness for amended C5 at concrete inputs. -/
theorem empty_link_contract_witness :
    build_masothue_link "" "0312345678" = "" ∧
    build_masothue_link "Cong Ty" "031" =
      "https://masothue.com/" ++ normalize_mst "031" ++ "-" ++ slugify_vi "Cong Ty" :=
  ⟨(empty_link_contract.1 "" "0312345678").1 (Or.inr (by decide)),
   (empty_link_contract.1 "Cong Ty" "031").2 (by decide) (by decide)⟩

/-- C10: the DirectLink url is synthesized from the abbreviation-expanded
customer name, not from the raw display name: the link is the registry base
plus the normalized identifier plus the slug of the expanded name, and the
expansion (tokens of the uppercased cleaned name looked up in the
abbreviation table, separators preserved, unmatched tokens kept uppercased)
can change the slug, as the concrete examples show. -/
theorem link_from_expanded_name :
    (∀ mst_raw name : String,
      prep_link mst_raw name =
        (if prep_mst_norm mst_raw ≠ "" ∧ slugify_vi (expand_abbreviations name) ≠ "" then
          "https://masothue.com/" ++ prep_mst_norm mst_raw ++ "-" ++
            slugify_vi (expand_abbreviations name)
        else "")) ∧
    expand_abbreviations "Cty TNHH Đầu tư ABC" =
      "CÔNG TY TRÁCH NHIỆM HỮU HẠN ĐẦU TƯ ABC" ∧
    expand_abbreviations "CT-CP" = "CÔNG TY-CỔ PHẦN" ∧
    slugify_vi (expand_abbreviations "CT ABC") = "cong-ty-abc" ∧
    slugify_vi "CT ABC" = "ct-abc" ∧
    prep_link "0312345678" "CT ABC" = "https://masothue.com/0312345678-cong-ty-abc" ∧
    prep_link "0312345678" "CT ABC" ≠
      "https://masothue.com/" ++ prep_mst_norm "0312345678" ++ "-" ++
        slugify_vi "CT ABC" := by
  refine ⟨fun mst_raw name => rfl, by decide, by decide, by decide, by decide,
    by decide, by decide⟩

end Mst
